import Mathlib

/-!
Verification of the compy-ai-backend request-orchestration pipeline:
rate limiting, filter translation, result compression and the
price-history recommendation classifier, shallowly embedded from the
TypeScript/JavaScript sources.
-/

namespace CompyAI

/-- JavaScript `Array.prototype.join(sep)` on a list of strings. -/
def joinSep (sep : String) : List String → String
  | [] => ""
  | [x] => x
  | x :: y :: xs => x ++ sep ++ joinSep sep (y :: xs)

/-! ## RecommendationClassifier -/

/-- The buy/wait verdict enumeration of spec §3, with the explicit
"Unknown/insufficient-history" outcome of spec §4.4. -/
inductive Recommendation where
  | goodTimeToBuy
  | considerWaiting
  | waitForBetterOffer
  | unknownInsufficientHistory
  deriving DecidableEq, Repr

/-- Price metrics of one product (spec §3).  `historicalMinimum` is optional:
the backend may have no price history for a product. -/
structure PriceMetrics where
  current : ℚ
  previous : ℚ
  historicalMinimum : Option ℚ
  percentSaveVsPrevious : Option ℚ
  deriving DecidableEq

/-- Modelled from the spec: the repository implements the recommendation
classifier only as natural-language instructions in the chat system prompt
(src/unnamed/part_003 "PRICE INFORMATION", src/unnamed/part_002 "BUYING
RECOMMENDATIONS"); no executable `classify` exists under src/.  Spec §3:
"if current < historicalMinimum in backend data, historicalMinimum must be
treated as current, i.e., the record is self-correcting". -/
def selfCorrectedMinimum (current m : ℚ) : ℚ :=
  if current < m then current else m

/-- Modelled from the spec: percent above the (self-corrected) historical
minimum, spec §4.4. -/
def percentAbove (current m : ℚ) : ℚ :=
  let m' := selfCorrectedMinimum current m
  (current - m') / m' * 100

/-- Modelled from the spec: the classifier of spec §4.4 with the reference
thresholds (percent above minimum > 30 → wait for better offer; in the
10–30 band → consider waiting; ≤ 10 → good time to buy; no history →
unknown). -/
def classify (pm : PriceMetrics) : Recommendation :=
  match pm.historicalMinimum with
  | none => .unknownInsufficientHistory
  | some m =>
    let p := percentAbove pm.current m
    if p > 30 then .waitForBetterOffer
    else if p > 10 then .considerWaiting
    else .goodTimeToBuy

/-! ## ClientIdentity (src/unnamed/part_003, POST identifier derivation) -/

/-- The two request headers the route reads for rate limiting. -/
structure ChatRequestHeaders where
  xForwardedFor : Option String
  userAgent : Option String
  deriving DecidableEq

/-- `const ip = req.headers.get("x-forwarded-for") ?? "anonymous";
const userAgent = req.headers.get("user-agent") ?? "unknown";
const identifier = ip:userAgent` (src/unnamed/part_003 lines 22–26). -/
def identifierFor (h : ChatRequestHeaders) : String :=
  (h.xForwardedFor.getD "anonymous") ++ ":" ++ (h.userAgent.getD "unknown")

/-! ## FilterTranslator

Two chat routes build Typesense filters.  JavaScript truthiness guards the
optional parameters: `if (brand)` and `if (priceMax)` skip `undefined`, `""`
and `0` alike.  Prices are modelled as `Nat` (template-literal rendering of a
non-negative integer matches `toString`). -/

/-- Truthiness of an optional JS number (absent, or present and zero, is falsy). -/
def truthyNum : Option Nat → Bool
  | none => false
  | some v => v != 0

/-- Truthiness of an optional JS string (absent or empty is falsy). -/
def truthyStr : Option String → Bool
  | none => false
  | some s => s != ""

/-- `queryByItems` of the route in src/unnamed/part_002 lines 421–428:
`if (brand) push(brand:${brand}); if (priceMax) push(bestprice:<${priceMax})`. -/
def queryByItemsV1 (brand : Option String) (priceMax : Option Nat) : List String :=
  (if truthyStr brand then ["brand:" ++ brand.getD ""] else []) ++
  (if truthyNum priceMax then ["bestprice:<" ++ toString (priceMax.getD 0)] else [])

/-- `queryByItems` of the route in src/unnamed/part_003 lines 219–227:
`if (priceMax) push(bestprice:<${priceMax}); if (priceMin) push(bestprice:>${priceMin})`. -/
def queryByItemsV2 (priceMax priceMin : Option Nat) : List String :=
  (if truthyNum priceMax then ["bestprice:<" ++ toString (priceMax.getD 0)] else []) ++
  (if truthyNum priceMin then ["bestprice:>" ++ toString (priceMin.getD 0)] else [])

/-- `if (queryByItems.length > 0) searchParams.set("filter_by", queryByItems.join("&&"))`:
the optional `filter_by` search parameter; `none` means no filter parameter at all. -/
def filterParamOf (items : List String) : Option String :=
  if items.length > 0 then some (joinSep "&&" items) else none

/-- Filter expression of the part_002 route. -/
def filterByV1 (brand : Option String) (priceMax : Option Nat) : Option String :=
  filterParamOf (queryByItemsV1 brand priceMax)

/-- Filter expression of the part_003 route. -/
def filterByV2 (priceMax priceMin : Option Nat) : Option String :=
  filterParamOf (queryByItemsV2 priceMax priceMin)

/-! ## SearchGateway request construction (src/unnamed/part_003, searchProducts) -/

/-- Arguments the model may pass to the `searchProducts` tool
(zod schema, src/unnamed/part_003 lines 188–203). -/
structure SearchToolArgs where
  query : String
  priceMax : Option Nat
  priceMin : Option Nat
  deriving DecidableEq

/-- The search parameters sent to the Typesense backend
(src/unnamed/part_003 lines 229–239). -/
structure SearchRequest where
  q : String
  query_by : String
  query_by_weights : String
  sort_by : String
  per_page : String
  filter_by : Option String
  deriving DecidableEq

/-- Builds the backend request exactly as `execute` does before `fetch`:
fixed weighted fields, fixed sort, page size 10, optional filter. -/
def buildSearchRequest (args : SearchToolArgs) : SearchRequest :=
  { q := args.query
    query_by := "title_infix,combined_text"
    query_by_weights := "3,2"
    sort_by := "top:desc,percent_offer:desc"
    per_page := "10"
    filter_by := filterByV2 args.priceMax args.priceMin }

/-! ## ResultCompressor (src/src/lib/utils/parse-search-results.js)

A Typesense document is modelled with its named fields plus an explicit
ordered list of dynamic string attributes (`attrs`), which carries the
prefix-named feature keys (`f.…`) — the representation spec §9 prescribes
for the sparse attribute bag.  Optional JS fields are `Option`. -/

/-- One product document inside a search hit. -/
structure SearchDoc where
  title : String
  brand : String
  repmodel : String
  bestprice : Nat
  attrs : List (String × String)
  images : Option (List String)
  stores : Option (List String)
  topstore : Option String
  url_compy : Option String
  url : String
  deriving DecidableEq

/-- One backend hit; the code only reads `hit.document`. -/
structure SearchHit where
  document : SearchDoc
  deriving DecidableEq

/-- The backend search response fields `compressProductData` reads:
`data.hits`, `data.found`, `data.request_params.q`, `data.page`. -/
structure SearchData where
  hits : List SearchHit
  found : Nat
  request_params_q : String
  page : Nat
  deriving DecidableEq

/-- The per-product record built inside `compressProductData`. -/
structure CompressedProduct where
  title : String
  brand : String
  model : String
  price : Nat
  features : String
  image : String
  stores : String
  url : String
  deriving DecidableEq

/-- The feature string of a document (parse-search-results.js lines 13–16):
keep the attributes whose key starts with "f." and whose value is not
"NO ESPECIFICA", render each as key-without-prefix-dot, colon, space, value
(`key.substring(2)` drops the two prefix characters), join with ", ".
`key.startsWith("f.")` is embedded as the character-level prefix test. -/
def extractFeatures (doc : SearchDoc) : String :=
  joinSep ", "
    ((doc.attrs.filter fun kv =>
        "f.".data.isPrefixOf kv.1.data && kv.2 != "NO ESPECIFICA").map
      fun kv => (kv.1.drop 2) ++ ": " ++ kv.2)

/-- First image if available, else the empty string (line 19):
`doc.images && doc.images.length > 0 ? doc.images[0]` or empty. -/
def firstImageOf (doc : SearchDoc) : String :=
  match doc.images with
  | some (img :: _) => img
  | _ => ""

/-- Store list (line 22): when `doc.stores` is present join it with ", ",
else fall back to `doc.topstore` or the empty string. -/
def storesListOf (doc : SearchDoc) : String :=
  match doc.stores with
  | some l => joinSep ", " l
  | none =>
    match doc.topstore with
    | some t => t
    | none => ""

/-- `url: doc.url_compy || doc.url` (line 32): empty string is falsy. -/
def canonicalUrlOf (doc : SearchDoc) : String :=
  match doc.url_compy with
  | some u => if u = "" then doc.url else u
  | none => doc.url

/-- The record the `hits.map` callback returns (lines 24–33). -/
def compressHit (hit : SearchHit) : CompressedProduct :=
  let doc := hit.document
  { title := doc.title
    brand := doc.brand
    model := doc.repmodel
    price := doc.bestprice
    features := extractFeatures doc
    image := firstImageOf doc
    stores := storesListOf doc
    url := canonicalUrlOf doc }

/-- The markdown row of one product (`formatAsMarkdown` loop, lines 56–61). -/
def markdownRow (p : CompressedProduct) : String :=
  let imageCell := if p.image != "" then "![Image](" ++ p.image ++ ")" else ""
  "| " ++ p.title ++ " | " ++ p.brand ++ " | " ++ p.model ++ " | " ++
    toString p.price ++ " | " ++ p.features ++ " | " ++ imageCell ++ " | " ++
    p.stores ++ " |\n"

/-- `formatAsMarkdown(products, summary)` (lines 50–65). -/
def formatAsMarkdown (products : List CompressedProduct)
    (search_query : String) (total_found page : Nat) : String :=
  "## Product Search Results\n" ++
  "*Query: \"" ++ search_query ++ "\" - Found: " ++ toString total_found ++
    " (Page " ++ toString page ++ ")*\n\n" ++
  "| Title | Brand | Model | Price | Features | Image | Stores |\n" ++
  "|-------|-------|-------|-------|----------|-------|--------|\n" ++
  String.join ((products.map markdownRow))

/-- `compressProductData(data)` (lines 7–45). -/
def compressProductData (data : SearchData) : String :=
  formatAsMarkdown (data.hits.map compressHit)
    data.request_params_q data.found data.page

/-! ### Serialized size of the input

`JSON.stringify` of the modelled response object (string escaping elided —
none of the inputs used below needs it). -/

/-- A JSON string literal (no escaping). -/
def jsonStr (s : String) : String := "\"" ++ s ++ "\""

/-- JSON array of strings. -/
def jsonStrList (l : List String) : String :=
  "[" ++ joinSep "," (l.map jsonStr) ++ "]"

/-- JSON serialization of a document: named fields, optional fields only when
present, then the dynamic attributes. -/
def serializeDoc (doc : SearchDoc) : String :=
  "\x7b" ++ joinSep ","
    (([ some ("\"title\":" ++ jsonStr doc.title),
        some ("\"brand\":" ++ jsonStr doc.brand),
        some ("\"repmodel\":" ++ jsonStr doc.repmodel),
        some ("\"bestprice\":" ++ toString doc.bestprice),
        doc.images.map (fun l => "\"images\":" ++ jsonStrList l),
        doc.stores.map (fun l => "\"stores\":" ++ jsonStrList l),
        doc.topstore.map (fun t => "\"topstore\":" ++ jsonStr t),
        doc.url_compy.map (fun u => "\"url_compy\":" ++ jsonStr u),
        some ("\"url\":" ++ jsonStr doc.url) ].filterMap id) ++
      doc.attrs.map (fun kv => jsonStr kv.1 ++ ":" ++ jsonStr kv.2)) ++ "\x7d"

/-- JSON serialization of one hit. -/
def serializeHit (h : SearchHit) : String :=
  "\x7b\"document\":" ++ serializeDoc h.document ++ "\x7d"

/-- JSON serialization of the whole backend response. -/
def serializeData (d : SearchData) : String :=
  "\x7b\"hits\":[" ++ joinSep "," (d.hits.map serializeHit) ++ "],\"found\":" ++
    toString d.found ++ ",\"request_params\":\x7b\"q\":" ++
    jsonStr d.request_params_q ++ "\x7d,\"page\":" ++ toString d.page ++ "\x7d"

/-! ## RateLimiter -/

/-- `Ratelimit.slidingWindow(20, "1 m")` — 20 requests per minute
(src/unnamed/part_003 line 12). -/
def slidingWindowLimit : Nat := 20

/-- The window width in milliseconds ("1 m"). -/
def slidingWindowMs : Nat := 60000

/-- A past admission at time `t` still occupies the window ending at `now`. -/
def inWindow (now t : Nat) : Bool := t ≤ now && now < t + slidingWindowMs

/-- The result shape destructured from `ratelimit.limit(identifier)`:
`{ success, limit, reset, remaining }` (src/unnamed/part_003 line 29). -/
structure AdmitResult where
  success : Bool
  limit : Nat
  remaining : Nat
  reset : Nat
  deriving DecidableEq

/-- Modelled from the spec: the sliding-window algorithm itself lives in the
external `@upstash/ratelimit` library; src/ only configures it with quota 20
and width one minute.  Spec §4.1/glossary: the quota applies to the trailing
fixed-duration interval ending at now; `reset` is the absolute time at which
the window frees a slot (the oldest in-window admission leaves the window).
`admitted` is the per-identity list of admission timestamps (ms). -/
def limit (admitted : List Nat) (now : Nat) : AdmitResult :=
  if (admitted.filter (inWindow now)).length < slidingWindowLimit then
    { success := true, limit := slidingWindowLimit,
      remaining :=
        slidingWindowLimit - ((admitted.filter (inWindow now)).length + 1),
      reset := (admitted.filter (inWindow now)).foldr min now + slidingWindowMs }
  else
    { success := false, limit := slidingWindowLimit, remaining := 0,
      reset := (admitted.filter (inWindow now)).foldr min now + slidingWindowMs }

/-- The admission-rejection response of the route: status, JSON body fields
and the `X-RateLimit-*` headers (src/unnamed/part_003 lines 40–59).  The ISO
rendering of the reset timestamp is abstracted as the timestamp itself. -/
structure Http429 where
  status : Nat
  bodyLimit : Nat
  bodyRemaining : Nat
  bodyReset : Nat
  bodyResetSeconds : Nat
  headerLimit : Nat
  headerRemaining : Nat
  headerReset : Nat
  deriving DecidableEq

/-- The `new Response(JSON.stringify({...limit, remaining, reset,
resetSeconds: Math.ceil((reset - Date.now()) / 1000)}), {status: 429,
headers: {X-RateLimit-...}})` value. -/
def rejectionResponse (r : AdmitResult) (now : Nat) : Http429 :=
  { status := 429
    bodyLimit := r.limit
    bodyRemaining := r.remaining
    bodyReset := r.reset
    bodyResetSeconds := (r.reset - now + 999) / 1000
    headerLimit := r.limit
    headerRemaining := r.remaining
    headerReset := r.reset }

/-- The admission phase of `POST`: rate limit first; on `!success` return the
429 response and do no conversation processing, otherwise continue with the
admit result (src/unnamed/part_003 lines 28–60). -/
def handleAdmission (admitted : List Nat) (now : Nat) :
    Except Http429 AdmitResult :=
  let r := limit admitted now
  if r.success then .ok r else .error (rejectionResponse r now)

/-! ## Search tool execution (src/unnamed/part_003, execute, lines 204–246) -/

/-- Outcome of the `fetch` to the Typesense backend, as the code observes it:
either the promise rejects (network failure), or a response with some HTTP
status arrives whose JSON body either has the hits-bearing shape
(`some SearchData`) or not (`none` — e.g. a Typesense error object, on which
`data.hits.map` throws a TypeError). -/
inductive FetchOutcome where
  | networkError
  | response (status : Nat) (body : Option SearchData)
  deriving DecidableEq

/-- How an execution of the tool can fail: the `fetch`/`json` rejection
propagating out of `execute`, or the thrown TypeError. -/
inductive ToolError where
  | fetchFailed
  | jsTypeError
  deriving DecidableEq

/-- `const response = await fetch(...); const data = await response.json();
return compressProductData(data);` — the status is never inspected. -/
def executeFetched (outcome : FetchOutcome) : Except ToolError String :=
  match outcome with
  | .networkError => .error .fetchFailed
  | .response _status body =>
    match body with
    | none => .error .jsTypeError
    | some d => .ok (compressProductData d)

/-- The whole `execute` callback, with the backend abstracted as a function
from the issued request to a fetch outcome: build the request (no argument
validation exists), issue it, process the outcome. -/
def searchToolExecute (args : SearchToolArgs)
    (backend : SearchRequest → FetchOutcome) : Except ToolError String :=
  executeFetched (backend (buildSearchRequest args))

/-! ## ConversationOrchestrator round bound -/

/-- `useChat({ maxSteps: 3 })` (src/unnamed/part_004 lines 42–44). -/
def maxSteps : Nat := 3

/-- What the model does next in a turn: request another tool round, or
produce the final prose answer. -/
inductive ModelAction where
  | toolRound (query : String)
  | finalAnswer (text : String)
  deriving DecidableEq

/-- How a turn ends: with an answer, or truncated at the round budget with
whatever partial output exists. -/
inductive TurnOutcome where
  | answered (text : String)
  | truncated
  deriving DecidableEq

/-- Modelled from the spec: the tool-call loop runs inside the ai-sdk
library; src/ only declares the bound `maxSteps: 3`.  Spec §4.5: on a tool
call the orchestrator runs the tool and returns to the model turn; "a round
counter bounds recursion (reference: at most 3 rounds per request) —
exceeding the bound forces termination with whatever partial answer exists
rather than looping indefinitely".  `script` is the sequence of actions the
model would take; the result is (rounds used, outcome). -/
def runTurn (bound : Nat) : List ModelAction → Nat → Nat × TurnOutcome
  | [], used => (used, .truncated)
  | .finalAnswer t :: _, used => (used, .answered t)
  | .toolRound _ :: rest, used =>
    if used < bound then runTurn bound rest (used + 1)
    else (used, .truncated)

/-! ## Sample inputs used by witnesses and counterexamples -/

/-- A backend response with no hits (also the shape of a zero-match result). -/
def emptyResponse : SearchData :=
  { hits := [], found := 0, request_params_q := "", page := 1 }

/-- A zero-match backend response for the query "tv". -/
def zeroHitsTv : SearchData :=
  { hits := [], found := 0, request_params_q := "tv", page := 1 }

/-- A sample document carrying one feature attribute. -/
def sampleDoc : SearchDoc :=
  { title := "TV LG 55", brand := "LG", repmodel := "55UQ8050", bestprice := 1499
    attrs := [("f.RAM", "8GB"), ("f.Color", "NO ESPECIFICA")]
    images := some ["http://img/1.jpg"]
    stores := some ["Falabella", "plazaVea"]
    topstore := none
    url_compy := some "http://compy.pe/tv"
    url := "http://other/tv" }

/-- A response containing `sampleDoc`. -/
def sampleResponse : SearchData :=
  { hits := [⟨sampleDoc⟩], found := 1, request_params_q := "tv", page := 1 }

/-! ## Helper lemmas -/

theorem data_append (a b : String) : (a ++ b).data = a.data ++ b.data := rfl

/-- Every member of a joined list occurs inside the join. -/
theorem mem_joinSep_isInfix (sep : String) :
    ∀ (l : List String) (x : String), x ∈ l →
      x.data <:+: (joinSep sep l).data := by
  intro l
  induction l with
  | nil => intro x hx; cases hx
  | cons a t ih =>
    intro x hx
    cases t with
    | nil =>
      have hxa : x = a := List.mem_singleton.mp hx
      subst hxa
      exact ⟨[], [], by simp [joinSep]⟩
    | cons b t' =>
      rcases List.mem_cons.mp hx with h | h
      · subst h
        exact ⟨[], (sep ++ joinSep sep (b :: t')).data,
          by simp [joinSep, data_append]⟩
      · obtain ⟨s, t, hst⟩ := ih x h
        exact ⟨(a ++ sep).data ++ s, t,
          by simp [joinSep, data_append, hst, List.append_assoc]⟩

/-- A left fold of string appends only grows the accumulator. -/
theorem foldl_append_data (l : List String) :
    ∀ init : String, ∃ rest,
      (l.foldl (fun r s => r ++ s) init).data = init.data ++ rest := by
  induction l with
  | nil => exact fun init => ⟨[], by simp⟩
  | cons a t ih =>
    intro init
    obtain ⟨rest, hrest⟩ := ih (init ++ a)
    exact ⟨a.data ++ rest, by simp [hrest, data_append, List.append_assoc]⟩

/-- Every member of a list occurs inside `String.join` of the list. -/
theorem mem_join_isInfix :
    ∀ (l : List String) (init x : String), x ∈ l →
      x.data <:+: (l.foldl (fun r s => r ++ s) init).data := by
  intro l
  induction l with
  | nil => intro init x hx; cases hx
  | cons a t ih =>
    intro init x hx
    rcases List.mem_cons.mp hx with h | h
    · subst h
      obtain ⟨rest, hrest⟩ := foldl_append_data t (init ++ x)
      exact ⟨init.data, rest, by simp [hrest, data_append, List.append_assoc]⟩
    · exact ih (init ++ a) x h

/-- The window never resets in the past: folding `min` over timestamps that
all have their window end after `now` keeps the window end after `now`. -/
theorem foldr_min_reset (W : Nat) (hW : 0 < W) :
    ∀ (l : List Nat) (now : Nat), (∀ t ∈ l, now < t + W) →
      now < l.foldr min now + W := by
  intro l
  induction l with
  | nil => intro now _; simp only [List.foldr_nil]; omega
  | cons a t ih =>
    intro now h
    have h1 : now < a + W := h a (List.mem_cons_self a t)
    have h2 : now < t.foldr min now + W :=
      ih now fun u hu => h u (List.mem_cons_of_mem a hu)
    simp only [List.foldr_cons]
    omega

/-- The round counter never exceeds the bound. -/
theorem runTurn_rounds_le (bound : Nat) :
    ∀ (script : List ModelAction) (used : Nat), used ≤ bound →
      (runTurn bound script used).1 ≤ bound := by
  intro script
  induction script with
  | nil => intro used h; exact h
  | cons a rest ih =>
    intro used h
    cases a with
    | finalAnswer t => exact h
    | toolRound q =>
      simp only [runTurn]
      by_cases hlt : used < bound
      · simpa [hlt] using ih (used + 1) hlt
      · simpa [hlt] using h

/-- Under a positive minimum, the self-corrected percent equals the
percent-above-minimum formula clamped to zero. -/
theorem percentAbove_eq_clamped (c m : ℚ) (hm : 0 < m) :
    percentAbove c m = max 0 ((c - m) / m * 100) := by
  unfold percentAbove selfCorrectedMinimum
  by_cases h : c < m
  · have hneg : (c - m) / m * 100 ≤ 0 := by
      have : (c - m) / m ≤ 0 :=
        div_nonpos_of_nonpos_of_nonneg (by linarith) hm.le
      nlinarith
    simp only [if_pos h, sub_self, zero_div, zero_mul]
    exact (max_eq_left hneg).symm
  · have hpos : 0 ≤ (c - m) / m * 100 := by
      have : 0 ≤ (c - m) / m := div_nonneg (by linarith [le_of_not_lt h]) hm.le
      nlinarith
    simp only [if_neg h]
    exact (max_eq_right hpos).symm

theorem string_append_assoc (a b c : String) : a ++ b ++ c = a ++ (b ++ c) :=
  String.ext (by simp [data_append, List.append_assoc])

/-! ## Claim theorems -/

/-- C1: with a (positive) historical minimum present, `classify` follows the
reference algorithm: `percentAboveMinimum = (current - historicalMinimum) /
historicalMinimum * 100` clamped to ≥ 0 (the self-correction treating the
minimum as `current` when `current < historicalMinimum`), returning
WaitForBetterOffer above 30, ConsiderWaiting in the 10–30 band, and
GoodTimeToBuy at ≤ 10 or when `current = historicalMinimum`. -/
theorem classify_reference_algorithm (pm : PriceMetrics) (m : ℚ)
    (hm : pm.historicalMinimum = some m) (hpos : 0 < m) :
    (30 < max 0 ((pm.current - m) / m * 100) →
      classify pm = .waitForBetterOffer) ∧
    (10 < max 0 ((pm.current - m) / m * 100) ∧
        max 0 ((pm.current - m) / m * 100) ≤ 30 →
      classify pm = .considerWaiting) ∧
    (max 0 ((pm.current - m) / m * 100) ≤ 10 →
      classify pm = .goodTimeToBuy) ∧
    (pm.current = m → classify pm = .goodTimeToBuy) := by
  have hp := percentAbove_eq_clamped pm.current m hpos
  have hc : classify pm =
      if 30 < max 0 ((pm.current - m) / m * 100) then .waitForBetterOffer
      else if 10 < max 0 ((pm.current - m) / m * 100) then .considerWaiting
      else .goodTimeToBuy := by
    unfold classify
    rw [hm]
    simp only [gt_iff_lt, hp]
  refine ⟨fun h => ?_, fun h => ?_, fun h => ?_, fun h => ?_⟩
  · rw [hc, if_pos h]
  · rw [hc, if_neg (by linarith [h.2]), if_pos h.1]
  · rw [hc, if_neg (by linarith), if_neg (by linarith)]
  · have h0 : max 0 ((pm.current - m) / m * 100) = 0 := by
      rw [h, sub_self, zero_div, zero_mul, max_self]
    rw [hc, h0]
    norm_num

/-- C1 witness: current 100 vs minimum 50 is 100 % above the minimum, hence
WaitForBetterOffer. -/
theorem classify_reference_algorithm_witness :
    classify ⟨100, 120, some 50, none⟩ = .waitForBetterOffer :=
  (classify_reference_algorithm ⟨100, 120, some 50, none⟩ 50 rfl
    (by norm_num)).1 (by norm_num)

/-- C2: `classify` is total and deterministic — identical metrics yield the
identical recommendation — and an absent historical minimum yields the
explicit Unknown/insufficient-history outcome, never the GoodTimeToBuy
default. -/
theorem classify_deterministic_unknown :
    (∀ pm₁ pm₂ : PriceMetrics, pm₁ = pm₂ → classify pm₁ = classify pm₂) ∧
    (∀ pm : PriceMetrics, pm.historicalMinimum = none →
      classify pm = .unknownInsufficientHistory ∧
      classify pm ≠ .goodTimeToBuy) := by
  refine ⟨fun pm₁ pm₂ h => h ▸ rfl, fun pm h => ?_⟩
  unfold classify
  rw [h]
  exact ⟨rfl, by simp⟩

/-- C2 witness: metrics with no price history classify as
Unknown/insufficient-history. -/
theorem classify_deterministic_unknown_witness :
    classify ⟨40, 50, none, none⟩ = .unknownInsufficientHistory :=
  (classify_deterministic_unknown.2 ⟨40, 50, none, none⟩ rfl).1

/-- C10: a request without x-forwarded-for gets identity component
"anonymous", one without user-agent gets "unknown", so all header-less
clients share the single rate-limit identity "anonymous:unknown". -/
theorem headerless_identity (ip ua : String) (h h' : ChatRequestHeaders)
    (hx : h.xForwardedFor = none) (hu : h.userAgent = none)
    (hx' : h'.xForwardedFor = none) (hu' : h'.userAgent = none) :
    identifierFor ⟨none, some ua⟩ = "anonymous:" ++ ua ∧
    identifierFor ⟨some ip, none⟩ = ip ++ ":unknown" ∧
    identifierFor h = "anonymous:unknown" ∧
    identifierFor h = identifierFor h' := by
  have he : h = ⟨none, none⟩ := by cases h; simp_all
  have he' : h' = ⟨none, none⟩ := by cases h'; simp_all
  subst he he'
  refine ⟨rfl, ?_, rfl, rfl⟩
  show ip ++ ":" ++ "unknown" = ip ++ ":unknown"
  rw [string_append_assoc]
  rfl

/-- C10 witness: two concrete header-less requests share the identity
"anonymous:unknown". -/
theorem headerless_identity_witness :
    identifierFor ⟨none, some "curl/8"⟩ = "anonymous:" ++ "curl/8" ∧
    identifierFor ⟨some "1.2.3.4", none⟩ = "1.2.3.4" ++ ":unknown" ∧
    identifierFor ⟨none, none⟩ = "anonymous:unknown" ∧
    identifierFor ⟨none, none⟩ = identifierFor ⟨none, none⟩ :=
  headerless_identity "1.2.3.4" "curl/8" ⟨none, none⟩ ⟨none, none⟩
    rfl rfl rfl rfl

/-- C5: the filter expression is built compositionally — no filters means no
filter parameter at all; each present (truthy) optional filter contributes
exactly one clause; clauses are ANDed with stable order, so brand "LG" with
priceMax 1000 yields exactly the two clauses brand:LG&&bestprice:<1000. -/
theorem translate_compositional (b : String) (v w : Nat)
    (hb : b ≠ "") (hv : v ≠ 0) (hw : w ≠ 0) :
    filterByV1 none none = none ∧
    filterByV2 none none = none ∧
    queryByItemsV1 (some b) none = ["brand:" ++ b] ∧
    queryByItemsV1 none (some v) = ["bestprice:<" ++ toString v] ∧
    queryByItemsV1 (some b) (some v) =
      ["brand:" ++ b, "bestprice:<" ++ toString v] ∧
    filterByV1 (some b) (some v) =
      some ("brand:" ++ b ++ "&&" ++ ("bestprice:<" ++ toString v)) ∧
    filterByV1 (some "LG") (some 1000) = some "brand:LG&&bestprice:<1000" ∧
    queryByItemsV2 (some v) (some w) =
      ["bestprice:<" ++ toString v, "bestprice:>" ++ toString w] ∧
    filterByV2 (some v) (some w) =
      some ("bestprice:<" ++ toString v ++ "&&" ++
        ("bestprice:>" ++ toString w)) := by
  have hvb : truthyNum (some v) = true := by simp [truthyNum, hv]
  have hwb : truthyNum (some w) = true := by simp [truthyNum, hw]
  have hbb : truthyStr (some b) = true := by simp [truthyStr, hb]
  refine ⟨rfl, rfl, ?_, ?_, ?_, ?_, by decide, ?_, ?_⟩ <;>
    simp [queryByItemsV1, queryByItemsV2, filterByV1, filterByV2,
      filterParamOf, joinSep, truthyNum, truthyStr, hb, hv, hw]

/-- C5 witness: brand "LG" with priceMax 1000 and the second route with
priceMax 1000, priceMin 100. -/
theorem translate_compositional_witness :
    filterByV1 none none = none ∧
    filterByV2 none none = none ∧
    queryByItemsV1 (some "LG") none = ["brand:" ++ "LG"] ∧
    queryByItemsV1 none (some 1000) = ["bestprice:<" ++ toString 1000] ∧
    queryByItemsV1 (some "LG") (some 1000) =
      ["brand:" ++ "LG", "bestprice:<" ++ toString 1000] ∧
    filterByV1 (some "LG") (some 1000) =
      some ("brand:" ++ "LG" ++ "&&" ++ ("bestprice:<" ++ toString 1000)) ∧
    filterByV1 (some "LG") (some 1000) = some "brand:LG&&bestprice:<1000" ∧
    queryByItemsV2 (some 1000) (some 100) =
      ["bestprice:<" ++ toString 1000, "bestprice:>" ++ toString 100] ∧
    filterByV2 (some 1000) (some 100) =
      some ("bestprice:<" ++ toString 1000 ++ "&&" ++
        ("bestprice:>" ++ toString 100)) :=
  translate_compositional "LG" 1000 100 (by decide) (by decide) (by decide)

/-- C9: a price bound of 0 is treated exactly as an absent bound — JavaScript
truthiness makes `if (priceMax)` and `if (priceMin)` skip 0, so the
translated filter is identical to the one with the bound absent. -/
theorem zero_price_bound_absent (b : Option String) (pM pm : Option Nat) :
    queryByItemsV2 (some 0) pm = queryByItemsV2 none pm ∧
    queryByItemsV2 pM (some 0) = queryByItemsV2 pM none ∧
    filterByV2 (some 0) pm = filterByV2 none pm ∧
    filterByV2 pM (some 0) = filterByV2 pM none ∧
    queryByItemsV1 b (some 0) = queryByItemsV1 b none ∧
    filterByV1 b (some 0) = filterByV1 b none :=
  ⟨rfl, rfl, rfl, rfl, rfl, rfl⟩

/-- C8 counterexample: with priceMin 100 > priceMax 50 the tool is not
rejected — the backend request is built with both contradictory clauses and
the execution returns the backend outcome, not an InvalidFilter error. -/
theorem no_invalid_filter_rejection_counterexample :
    (buildSearchRequest ⟨"tv", some 50, some 100⟩).filter_by =
      some "bestprice:<50&&bestprice:>100" ∧
    searchToolExecute ⟨"tv", some 50, some 100⟩
        (fun _ => .response 200 (some zeroHitsTv)) =
      .ok (compressProductData zeroHitsTv) :=
  ⟨rfl, rfl⟩

/-- C8 amended: the tool performs no semantic validation of its filter
arguments — for every pair of truthy price bounds, including priceMin >
priceMax, the backend request carries one clause per bound and is issued,
the tool returning whatever the backend outcome yields. -/
theorem invalid_filter_forwarded (q : String) (v w : Nat)
    (hv : v ≠ 0) (hw : w ≠ 0)
    (backend : SearchRequest → FetchOutcome) :
    (buildSearchRequest ⟨q, some v, some w⟩).filter_by =
      some ("bestprice:<" ++ toString v ++ "&&" ++
        ("bestprice:>" ++ toString w)) ∧
    searchToolExecute ⟨q, some v, some w⟩ backend =
      executeFetched (backend (buildSearchRequest ⟨q, some v, some w⟩)) := by
  have hvb : truthyNum (some v) = true := by simp [truthyNum, hv]
  have hwb : truthyNum (some w) = true := by simp [truthyNum, hw]
  refine ⟨?_, rfl⟩
  simp [buildSearchRequest, filterByV2, queryByItemsV2, filterParamOf,
    joinSep, hvb, hwb]

/-- C8 amended witness: priceMax 50 with priceMin 100 (malformed) is still
forwarded to the backend. -/
theorem invalid_filter_forwarded_witness :
    (buildSearchRequest ⟨"tv", some 50, some 100⟩).filter_by =
      some ("bestprice:<" ++ toString 50 ++ "&&" ++
        ("bestprice:>" ++ toString 100)) ∧
    searchToolExecute ⟨"tv", some 50, some 100⟩ (fun _ => .networkError) =
      executeFetched ((fun _ => FetchOutcome.networkError)
        (buildSearchRequest ⟨"tv", some 50, some 100⟩)) :=
  invalid_filter_forwarded "tv" 50 100 (by decide) (by decide)
    (fun _ => .networkError)

/-- A string occurs at the end of anything appended to its left. -/
theorem right_append_isInfix (a b : String) : b.data <:+: (a ++ b).data :=
  ⟨a.data, [], by simp [data_append]⟩

/-- The feature string occurs inside the markdown row of its product. -/
theorem features_isInfix_row (p : CompressedProduct) :
    p.features.data <:+: (markdownRow p).data := by
  refine ⟨("| " ++ p.title ++ " | " ++ p.brand ++ " | " ++ p.model ++ " | " ++
      toString p.price ++ " | ").data,
    (" | " ++ (if p.image != "" then "![Image](" ++ p.image ++ ")" else "") ++
      " | " ++ p.stores ++ " |\n").data, ?_⟩
  simp [markdownRow, data_append, List.append_assoc]

set_option maxRecDepth 4000 in
/-- C3 counterexample: on a hitless backend response the fixed markdown
header alone exceeds the serialized input, so the compressed output is
larger than the input. -/
theorem compress_not_smaller_counterexample :
    ¬ ((compressProductData emptyResponse).length ≤
        (serializeData emptyResponse).length) := by decide

/-- C3 amended: every feature attribute of a hit whose key carries the
"f." prefix and whose value is not the "NO ESPECIFICA" sentinel appears in
that hit's compressed feature string, and hence in the compressed output;
the claimed size bound (serialized output ≤ serialized input) does not hold
for all inputs. -/
theorem compress_preserves_features (data : SearchData) (hit : SearchHit)
    (kv : String × String) (hhit : hit ∈ data.hits)
    (hmem : kv ∈ hit.document.attrs)
    (hpre : "f.".data.isPrefixOf kv.1.data = true)
    (hval : kv.2 ≠ "NO ESPECIFICA") :
    ((kv.1.drop 2) ++ ": " ++ kv.2).data <:+:
      (compressHit hit).features.data ∧
    ((kv.1.drop 2) ++ ": " ++ kv.2).data <:+:
      (compressProductData data).data := by
  have hfilter : kv ∈ hit.document.attrs.filter
      (fun kv => "f.".data.isPrefixOf kv.1.data && kv.2 != "NO ESPECIFICA") :=
    List.mem_filter.mpr ⟨hmem, by simp [hpre, hval]⟩
  have hmap : (kv.1.drop 2) ++ ": " ++ kv.2 ∈
      (hit.document.attrs.filter
        (fun kv => "f.".data.isPrefixOf kv.1.data &&
          kv.2 != "NO ESPECIFICA")).map
        (fun kv => (kv.1.drop 2) ++ ": " ++ kv.2) :=
    List.mem_map_of_mem _ hfilter
  have h1 : ((kv.1.drop 2) ++ ": " ++ kv.2).data <:+:
      (compressHit hit).features.data :=
    mem_joinSep_isInfix ", " _ _ hmap
  refine ⟨h1, ?_⟩
  have hrow : markdownRow (compressHit hit) ∈
      (data.hits.map compressHit).map markdownRow :=
    List.mem_map_of_mem _ (List.mem_map_of_mem _ hhit)
  have h2 : (markdownRow (compressHit hit)).data <:+:
      (String.join ((data.hits.map compressHit).map markdownRow)).data :=
    mem_join_isInfix _ "" _ hrow
  have h3 : (String.join ((data.hits.map compressHit).map markdownRow)).data
      <:+: (compressProductData data).data := by
    unfold compressProductData formatAsMarkdown
    exact right_append_isInfix _ _
  exact (h1.trans (features_isInfix_row _)).trans (h2.trans h3)

/-- C3 amended witness: the feature "f.RAM: 8GB" of the sample hit appears in
its compressed feature string and in the compressed output. -/
theorem compress_preserves_features_witness :
    (("f.RAM".drop 2) ++ ": " ++ "8GB").data <:+:
      (compressHit ⟨sampleDoc⟩).features.data ∧
    (("f.RAM".drop 2) ++ ": " ++ "8GB").data <:+:
      (compressProductData sampleResponse).data :=
  compress_preserves_features sampleResponse ⟨sampleDoc⟩ ("f.RAM", "8GB")
    (List.mem_singleton.mpr rfl) (List.mem_cons_self _ _) (by decide)
    (by decide)

/-- C6 counterexample: the HTTP status is never inspected — a non-success
(500) response with a hits-shaped zero-match body is processed exactly like
a 200 response and returned as an ordinary empty result table, not as a
SearchUnavailable error. -/
theorem status_not_checked_counterexample :
    executeFetched (.response 500 (some zeroHitsTv)) =
      executeFetched (.response 200 (some zeroHitsTv)) ∧
    executeFetched (.response 500 (some zeroHitsTv)) =
      .ok (compressProductData zeroHitsTv) :=
  ⟨rfl, rfl⟩

/-- C6 amended: a network failure surfaces as the propagating fetch
rejection and a response body without the hits shape (as Typesense error
bodies are) surfaces as the thrown TypeError — never an empty result set;
but the status code itself is ignored: responses with identical bodies are
processed identically regardless of status. -/
theorem search_failure_surfaces (outcome : FetchOutcome) (s₁ s₂ : Nat)
    (body : Option SearchData)
    (h : outcome = .networkError ∨ outcome = .response s₁ none) :
    (executeFetched outcome = .error .fetchFailed ∨
      executeFetched outcome = .error .jsTypeError) ∧
    executeFetched (.response s₁ body) = executeFetched (.response s₂ body) := by
  refine ⟨?_, rfl⟩
  rcases h with h | h <;> subst h
  · exact Or.inl rfl
  · exact Or.inr rfl

/-- C6 amended witness: a network failure at status arguments 500/200 with a
zero-match body. -/
theorem search_failure_surfaces_witness :
    (executeFetched .networkError = .error .fetchFailed ∨
      executeFetched .networkError = .error .jsTypeError) ∧
    executeFetched (.response 500 (some zeroHitsTv)) =
      executeFetched (.response 200 (some zeroHitsTv)) :=
  search_failure_surfaces .networkError 500 200 (some zeroHitsTv) (Or.inl rfl)

/-- C4: the limiter admits while fewer than 20 admissions sit in the sliding
60-second window; with the window full the request is rejected before any
conversation processing with an HTTP 429 whose JSON body carries the limit,
remaining = 0 and a reset time strictly in the future, mirrored in the
X-RateLimit-* headers. -/
theorem rate_limiter_rejects (admitted : List Nat) (now : Nat)
    (hfull : slidingWindowLimit ≤ (admitted.filter (inWindow now)).length) :
    ((limit admitted now).success = true ↔
      (admitted.filter (inWindow now)).length < slidingWindowLimit) ∧
    (limit admitted now).success = false ∧
    (limit admitted now).remaining = 0 ∧
    handleAdmission admitted now =
      .error (rejectionResponse (limit admitted now) now) ∧
    (rejectionResponse (limit admitted now) now).status = 429 ∧
    (rejectionResponse (limit admitted now) now).bodyLimit =
      slidingWindowLimit ∧
    (rejectionResponse (limit admitted now) now).bodyRemaining = 0 ∧
    now < (rejectionResponse (limit admitted now) now).bodyReset ∧
    (rejectionResponse (limit admitted now) now).headerLimit =
      (rejectionResponse (limit admitted now) now).bodyLimit ∧
    (rejectionResponse (limit admitted now) now).headerRemaining =
      (rejectionResponse (limit admitted now) now).bodyRemaining ∧
    (rejectionResponse (limit admitted now) now).headerReset =
      (rejectionResponse (limit admitted now) now).bodyReset := by
  have hnlt : ¬ ((admitted.filter (inWindow now)).length <
      slidingWindowLimit) := Nat.not_lt.mpr hfull
  have hlim : limit admitted now =
      { success := false, limit := slidingWindowLimit, remaining := 0,
        reset := (admitted.filter (inWindow now)).foldr min now +
          slidingWindowMs } := by
    unfold limit
    rw [if_neg hnlt]
  have hreset : now < (admitted.filter (inWindow now)).foldr min now +
      slidingWindowMs := by
    refine foldr_min_reset slidingWindowMs (by norm_num [slidingWindowMs])
      _ now fun t ht => ?_
    have hw : inWindow now t = true := (List.mem_filter.mp ht).2
    have := hw
    simp only [inWindow, Bool.and_eq_true, decide_eq_true_eq] at this
    exact this.2
  refine ⟨?_, ?_, ?_, ?_, rfl, ?_, ?_, ?_, rfl, rfl, rfl⟩
  · rw [hlim]
    simp [hnlt]
  · rw [hlim]
  · rw [hlim]
  · unfold handleAdmission
    rw [hlim]
    rfl
  · rw [hlim]
    rfl
  · rw [hlim]
    rfl
  · show now < (limit admitted now).reset
    rw [hlim]
    exact hreset

/-- C4 witness: twenty admissions at time 0 fill the window; a request at
time 1000 is rejected with remaining 0 and a future reset. -/
theorem rate_limiter_rejects_witness :
    (limit (List.replicate 20 0) 1000).success = false ∧
    (limit (List.replicate 20 0) 1000).remaining = 0 ∧
    handleAdmission (List.replicate 20 0) 1000 =
      .error (rejectionResponse (limit (List.replicate 20 0) 1000) 1000) ∧
    (rejectionResponse (limit (List.replicate 20 0) 1000) 1000).status =
      429 ∧
    1000 <
      (rejectionResponse (limit (List.replicate 20 0) 1000) 1000).bodyReset := by
  obtain ⟨h1, h2, h3, h4, h5, h6, h7, h8, h9, h10, h11⟩ :=
    rate_limiter_rejects (List.replicate 20 0) 1000 (by decide)
  exact ⟨h2, h3, h4, h5, h8⟩

/-- C7: the tool-call loop is bounded by the declared `maxSteps = 3`: the
round count of any turn never exceeds 3, a turn with two tool rounds still
completes with its answer, and a script attempting a fourth round is cut off
at 3 rounds, terminating the turn rather than looping. -/
theorem tool_rounds_bounded (script : List ModelAction)
    (q₁ q₂ q₃ q₄ t : String) :
    (runTurn maxSteps script 0).1 ≤ 3 ∧
    runTurn maxSteps [.toolRound q₁, .toolRound q₂, .finalAnswer t] 0 =
      (2, .answered t) ∧
    runTurn maxSteps [.toolRound q₁, .toolRound q₂, .toolRound q₃,
      .toolRound q₄, .finalAnswer t] 0 = (3, .truncated) :=
  ⟨runTurn_rounds_le maxSteps script 0 (by decide), rfl, rfl⟩

end CompyAI
